import Mathlib

/-!
Shallow embedding of the karpenter provisioning loop and the AL2 AMI family
(package `amifamily` and package `provisioning`), together with proofs about
the control flow of `provision`, `getPods`, `schedule`, `launch`, `bind`,
`getDaemonOverhead` and `AL2.containerRuntime`.

External collaborators (cluster store, cloud provider, requirements algebra)
are modelled as oracle fields of explicit environment structures; the control
flow of the embedded functions follows the Go source line by line.  Machine
quantities are modelled as `Nat` (Kubernetes resource quantities are
non-negative).
-/

namespace Karpenter

/-- A Kubernetes resource list: resource name to quantity.  Quantities are
modelled as `Nat`; a missing key reads as the zero quantity, as in Go. -/
abbrev ResourceList := List (String × Nat)

/-- Reading a quantity out of a resource list; a missing key is the zero
value, mirroring Go map indexing on `v1.ResourceList`. -/
def getResource (rl : ResourceList) (k : String) : Nat :=
  match rl.find? (fun kv => kv.1 = k) with
  | some kv => kv.2
  | none => 0

/-- Embeds `resources.IsZero` from `pkg/utils/resources`: whether a quantity
is the zero quantity. -/
def IsZero (q : Nat) : Bool := q == 0

/-- Resource name `v1alpha1.ResourceNVIDIAGPU`. -/
def ResourceNVIDIAGPU : String := "nvidia.com/gpu"

/-- Resource name `v1alpha1.ResourceAMDGPU`. -/
def ResourceAMDGPU : String := "amd.com/gpu"

/-- Resource name `v1alpha1.ResourceAWSNeuron`. -/
def ResourceAWSNeuron : String := "aws.amazon.com/neuron"

/-- An instance type as the AL2 code consumes it: only its resource vector is
relevant to `containerRuntime`. -/
structure InstanceType where
  resources : ResourceList
deriving DecidableEq, Repr

/-- Embeds `AL2.containerRuntime` (al2.go): indexes `instanceTypes[0]` and
returns "containerd" exactly when the NVIDIA GPU, AMD GPU and AWS Neuron
resources of that first instance type are all zero, else "dockerd".  The Go
code panics on an empty slice; the embedding returns `none` there. -/
def containerRuntime (instanceTypes : List InstanceType) : Option String :=
  match instanceTypes with
  | [] => none
  | it :: _ =>
    let instanceResources := it.resources
    if IsZero (getResource instanceResources ResourceNVIDIAGPU) &&
       IsZero (getResource instanceResources ResourceAMDGPU) &&
       IsZero (getResource instanceResources ResourceAWSNeuron) then
      some "containerd"
    else
      some "dockerd"

/-- The part of the EKS bootstrapper that `AL2.UserData` fills in and that the
claims consult: the selected container runtime. -/
structure BootstrapEKS where
  containerRuntimeChoice : Option String
deriving DecidableEq, Repr

/-- Embeds `AL2.UserData` (al2.go) restricted to the field the claims are
about: it delegates the runtime choice to `containerRuntime` on the given
instance-type list. -/
def UserData (instanceTypes : List InstanceType) : BootstrapEKS :=
  { containerRuntimeChoice := containerRuntime instanceTypes }

/-- A node taint: key, value and effect, as in `v1.Taint`. -/
structure Taint where
  key : String
  value : String
  effect : String
deriving DecidableEq, Repr

/-- A pod toleration, as in `v1.Toleration`.  The operator is the literal
string used by the Kubernetes API: "Equal", "Exists" or "" (empty means
Equal). -/
structure Toleration where
  key : String
  operator : String
  value : String
  effect : String
deriving DecidableEq, Repr

/-- Modelled from the spec: `v1.Toleration.ToleratesTaint` of the external
Kubernetes core library (an out-of-scope collaborator).  A toleration
tolerates a taint when its effect is empty or equal to the taint's effect,
its key is empty or equal to the taint's key, and its operator accepts the
taint's value ("Exists" accepts any value; "Equal" or "" requires equality). -/
def toleratesTaint (t : Toleration) (taint : Taint) : Bool :=
  if t.effect.length > 0 && t.effect != taint.effect then false
  else if t.key.length > 0 && t.key != taint.key then false
  else if t.operator = "Exists" then true
  else if t.operator = "" || t.operator = "Equal" then t.value == taint.value
  else false

/-- Modelled from the spec: `v1alpha5.Taints.Tolerates` of
`pkg/apis/provisioning` (repository code not under src/).  Per the spec it
succeeds exactly when every taint in the list is tolerated by some toleration
of the pod or of the additional list. -/
def taintsTolerate (ts : List Taint) (podTolerations additional : List Toleration) : Bool :=
  ts.all (fun taint => (podTolerations ++ additional).any (fun t => toleratesTaint t taint))

/-- A pod as the provisioning code consumes it: identity, assignment,
tolerations and resource requests. -/
structure Pod where
  ns : String
  name : String
  nodeName : String
  tolerations : List Toleration
  requests : ResourceList
deriving DecidableEq, Repr

/-- A provisioner snapshot: static taints, startup taints, optional resource
limits, and the current resource usage recorded in its status. -/
structure Provisioner where
  name : String
  taints : List Taint
  startupTaints : List Taint
  limits : Option ResourceList
  statusResources : ResourceList
deriving DecidableEq, Repr

/-- A cluster node object, as returned by the cloud provider and registered
with the store: name and taints are what `bind` consults. -/
structure NodeObj where
  name : String
  taints : List Taint
deriving DecidableEq, Repr

/-- A synthetic node produced by `Scheduler.Solve`
(`scheduling.Node`): its provisioner, its placed pods, and its
instance-type options. -/
structure SchedNode where
  provisioner : Provisioner
  pods : List Pod
  instanceTypeOptions : List InstanceType
deriving DecidableEq, Repr

/-- Errors flowing through the provisioning code.  `alreadyExists` is the
status the cluster store reports for a conflicting create; everything else is
a plain message, matching `fmt.Errorf`. -/
inductive Err where
  | alreadyExists
  | other (msg : String)
deriving DecidableEq, Repr

/-- Embeds `errors.IsAlreadyExists` of the external apimachinery library. -/
def Err.isAlreadyExists : Err → Bool
  | .alreadyExists => true
  | .other _ => false

/-- Observable effects of a provisioning pass: calls into the cloud provider
and the cluster store, emitted events, and log lines.  The embedded functions
return their effect trace next to their result. -/
inductive Effect where
  | cloudCreate
  | nodeRegister (name : String)
  | bindStart (nodeName : String)
  | bindCall (podNs podName nodeName : String)
  | podShouldSchedule (podNs podName : String)
  | solveCall
  | launchAttempt (i : Nat)
  | logError (msg : String)
deriving DecidableEq, Repr

/-- Constant `v1alpha5.NotReadyTaintKey`. -/
def NotReadyTaintKey : String := "karpenter.sh/not-ready"

/-- Constant `v1.TaintNodeNotReady` of the Kubernetes core library. -/
def TaintNodeNotReady : String := "node.kubernetes.io/not-ready"

/-- Embeds the `notReadyTolerations` literal of `Provisioner.bind`: the two
standard tolerations granted while binding to not-yet-ready nodes. -/
def notReadyTolerations : List Toleration :=
  [ { key := NotReadyTaintKey, operator := "Equal", value := "", effect := "NoSchedule" },
    { key := TaintNodeNotReady, operator := "Equal", value := "", effect := "NoSchedule" } ]

/-- Oracle for the cluster store's per-pod `Bind` call inside `bind`: the
result of binding the i-th pod (`none` means success). -/
structure BindEnv where
  bindResult : Nat → Option Err

/-- Embeds the body of the per-pod closure in `Provisioner.bind`: a pod whose
tolerations (extended by `notReadyTolerations`) do not tolerate the node's
taints gets a `PodShouldSchedule` event and no binding; otherwise a binding
targeting the node is attempted, a failure being only logged. -/
def bindPod (env : BindEnv) (node : NodeObj) (i : Nat) (pod : Pod) : List Effect :=
  if ¬ taintsTolerate node.taints pod.tolerations notReadyTolerations then
    [.podShouldSchedule pod.ns pod.name]
  else
    .bindCall pod.ns pod.name node.name ::
      (match env.bindResult i with
       | some _ => [.logError "Failed to bind"]
       | none => [])

/-- Embeds `Provisioner.bind`: iterates the per-pod closure over the placed
pods (the parallel fan-out is modelled as iteration in list order) and
unconditionally returns nil. -/
def bind (env : BindEnv) (node : NodeObj) (pods : List Pod) :
    Except Err Unit × List Effect :=
  (Except.ok (), (pods.enum.map (fun ip => bindPod env node ip.1 ip.2)).flatten)

/-- The error `Limits.ExceededBy` surfaces when a limit is exceeded. -/
def limitsExceededErr : Err := .other "limits exceeded"

/-- Modelled from the spec: `v1alpha5.Limits.ExceededBy` of
`pkg/apis/provisioning` (repository code not under src/).  Per the spec and
the claim, the check fires when the current usage already exceeds a declared
limit: some resource present in the limits has usage strictly above it.  A
provisioner with no limits block never exceeds. -/
def exceededBy (limits : Option ResourceList) (usage : ResourceList) : Bool :=
  match limits with
  | none => false
  | some ls =>
    usage.any (fun kv =>
      match ls.find? (fun l => l.1 = kv.1) with
      | some l => kv.2 > l.2
      | none => false)

/-- Oracles for one `launch` call: the fresh `Get` of the provisioner from
the cluster store, the cloud provider's `Create`, the `mergo.Merge` outcome,
and the node-object registration outcome (`none` means created). -/
structure LaunchEnv where
  kubeGet : Except Err Provisioner
  cloudCreate : Except Err NodeObj
  mergeResult : Option Err
  registerNode : Option Err
  bindEnv : BindEnv

/-- Embeds `Provisioner.launch`: re-reads the provisioner, checks its limits
against its own status, calls the cloud provider, merges, idempotently
registers the node object (an AlreadyExists answer is logged and treated as
success), and binds the placed pods.  Effects are recorded at each external
call site. -/
def launch (env : LaunchEnv) (node : SchedNode) : Except Err Unit × List Effect :=
  match env.kubeGet with
  | .error _ => (.error (.other "getting current resource usage"), [])
  | .ok latest =>
    if exceededBy latest.limits latest.statusResources then
      (.error limitsExceededErr, [])
    else
      match env.cloudCreate with
      | .error _ => (.error (.other "creating cloud provider machine"), [Effect.cloudCreate])
      | .ok k8sNode =>
        match env.mergeResult with
        | some _ => (.error (.other "merging cloud provider node"), [Effect.cloudCreate])
        | none =>
          let registerTrace := [Effect.cloudCreate, Effect.nodeRegister k8sNode.name]
          match env.registerNode with
          | some e =>
            if e.isAlreadyExists then
              let bindRes := bind env.bindEnv k8sNode node.pods
              (match bindRes.1 with
               | .error _ => .error (.other "binding pods")
               | .ok _ => .ok (),
               registerTrace ++ Effect.bindStart k8sNode.name :: bindRes.2)
            else
              (.error (.other "creating node"), registerTrace)
          | none =>
            let bindRes := bind env.bindEnv k8sNode node.pods
            (match bindRes.1 with
             | .error _ => .error (.other "binding pods")
             | .ok _ => .ok (),
             registerTrace ++ Effect.bindStart k8sNode.name :: bindRes.2)

/-- Oracles for `getPods`: the cluster store's pod content and the three
predicates `validate`, `validatePersistentVolumeClaims` and
`isProvisionable` (repository code outside src/, kept abstract). -/
structure GetPodsEnv where
  listPods : Except Err (List Pod)
  validateOk : Pod → Bool
  pvcOk : Pod → Bool
  provisionable : Pod → Bool

/-- Embeds the loop body of `Provisioner.getPods`: a pod failing validation
or volume-claim validation is skipped (the Go `continue` after the debug
log), and a surviving pod is kept when provisionable. -/
def getPodsLoop (env : GetPodsEnv) : List Pod → List Pod
  | [] => []
  | pod :: rest =>
    if ¬ (env.validateOk pod && env.pvcOk pod) then getPodsLoop env rest
    else if env.provisionable pod then pod :: getPodsLoop env rest
    else getPodsLoop env rest

/-- Embeds `Provisioner.getPods`: lists pods with the field selector
`spec.nodeName == ""` (the `MatchingFields` option, applied here on the
store's full content per the store's documented selector semantics), then
runs the validation loop. -/
def getPods (env : GetPodsEnv) : Except Err (List Pod) :=
  match env.listPods with
  | .error _ => .error (.other "listing pods")
  | .ok stored => .ok (getPodsLoop env (stored.filter (fun p => p.nodeName == "")))

/-- A DaemonSet as `getDaemonOverhead` consumes it: the pod built from its
template spec (`v1.Pod{Spec: daemonSet.Spec.Template.Spec}`). -/
structure DaemonSet where
  template : Pod
deriving DecidableEq, Repr

/-- Replaces or inserts one key of a resource list. -/
def setResource (rl : ResourceList) (k : String) (v : Nat) : ResourceList :=
  match rl with
  | [] => [(k, v)]
  | kv :: rest => if kv.1 = k then (k, v) :: rest else kv :: setResource rest k v

/-- Pointwise addition of two resource lists. -/
def addResources (a b : ResourceList) : ResourceList :=
  b.foldl (fun acc kv => setResource acc kv.1 (getResource acc kv.1 + kv.2)) a

/-- Modelled from the spec: `resources.RequestsForPods` of
`pkg/utils/resources` (repository code not under src/).  Per the spec it sums
the resource requests of the given pods. -/
def RequestsForPods (pods : List Pod) : ResourceList :=
  pods.foldl (fun acc p => addResources acc p.requests) []

/-- Embeds the inner loop of `Provisioner.getDaemonOverhead`: keep the
template pods of the DaemonSets whose tolerations accept the provisioner's
static taints (`provisioner.Spec.Taints.Tolerates(p)`, no additional
tolerations) and that are compatible with its requirements; the requirements
algebra is the abstract `compatible` oracle. -/
def daemonsFor (compatible : Provisioner → Pod → Bool) (prov : Provisioner) :
    List DaemonSet → List Pod
  | [] => []
  | ds :: rest =>
    let p := ds.template
    if ¬ taintsTolerate prov.taints p.tolerations [] then daemonsFor compatible prov rest
    else if ¬ compatible prov p then daemonsFor compatible prov rest
    else p :: daemonsFor compatible prov rest

/-- Embeds `Provisioner.getDaemonOverhead`: lists DaemonSets once, then maps
every provisioner to the summed requests of its filtered daemon pods (the Go
map keyed by provisioner pointer becomes an association list in input
order). -/
def getDaemonOverhead (compatible : Provisioner → Pod → Bool)
    (listDaemonSets : Except Err (List DaemonSet)) (provisioners : List Provisioner) :
    Except Err (List (Provisioner × ResourceList)) :=
  match listDaemonSets with
  | .error _ => .error (.other "listing daemonsets")
  | .ok items =>
    .ok (provisioners.map (fun prov =>
      (prov, RequestsForPods (daemonsFor compatible prov items))))

/-- The fatal error of a pass that found no provisioners
(`fmt.Errorf("no provisioners found")`). -/
def noProvisionersErr : Err := .other "no provisioners found"

/-- Oracles for `Provisioner.schedule`: the provisioner listing, the
cloud-provider calls made per provisioner, volume-topology injection per pod,
topology construction, the daemon-overhead collaborators and the scheduler's
`Solve`. -/
structure ScheduleEnv where
  listProvisioners : Except Err (List Provisioner)
  getRequirements : Provisioner → Option Err
  getInstanceTypes : Provisioner → Except Err (List InstanceType)
  injectVolumeTopology : Pod → Option Err
  buildTopology : Except Err Unit
  compatible : Provisioner → Pod → Bool
  listDaemonSets : Except Err (List DaemonSet)
  solve : Except Err (List SchedNode)

/-- Embeds the per-provisioner loop of `Provisioner.schedule`: for each
listed provisioner the cloud provider's `GetRequirements` and
`GetInstanceTypes` are consulted (an error aborts the pass), and the
provisioner is appended; the requirements merging itself lives in the
out-of-scope requirements algebra. -/
def buildProvisioners (env : ScheduleEnv) : List Provisioner → Except Err (List Provisioner)
  | [] => .ok []
  | prov :: rest =>
    match env.getRequirements prov with
    | some _ => .error (.other "getting provider requirements")
    | none =>
      match env.getInstanceTypes prov with
      | .error _ => .error (.other "getting instance types")
      | .ok _ =>
        match buildProvisioners env rest with
        | .error e => .error e
        | .ok provisioners => .ok (prov :: provisioners)

/-- Embeds the volume-topology injection loop of `Provisioner.schedule`: the
first failing pod aborts. -/
def injectAll (env : ScheduleEnv) : List Pod → Option Err
  | [] => none
  | pod :: rest =>
    match env.injectVolumeTopology pod with
    | some e => some e
    | none => injectAll env rest

/-- Embeds `Provisioner.schedule`: list provisioners, build them, fail with
`noProvisionersErr` when none were found, inject volume topology, build the
topology tracker, compute the daemon overhead, and only then call
`Scheduler.Solve` (recorded as the `solveCall` effect). -/
def schedule (env : ScheduleEnv) (pods : List Pod) :
    Except Err (List SchedNode) × List Effect :=
  match env.listProvisioners with
  | .error _ => (.error (.other "listing provisioners"), [])
  | .ok items =>
    match buildProvisioners env items with
    | .error e => (.error e, [])
    | .ok provisioners =>
      if provisioners.length = 0 then
        (.error noProvisionersErr, [])
      else
        match injectAll env pods with
        | some _ => (.error (.other "getting volume topology requirements"), [])
        | none =>
          match env.buildTopology with
          | .error _ => (.error (.other "tracking topology counts"), [])
          | .ok _ =>
            match getDaemonOverhead env.compatible env.listDaemonSets provisioners with
            | .error _ => (.error (.other "getting daemon overhead"), [])
            | .ok _ => (env.solve, [Effect.solveCall])

/-- Oracles for one `provision` pass: the pod listing, the scheduling
collaborators, and one launch environment per synthetic node. -/
structure ProvisionEnv where
  podsEnv : GetPodsEnv
  schedEnv : ScheduleEnv
  launchEnvs : Nat → LaunchEnv

/-- Embeds the `workqueue.ParallelizeUntil` block of `Provisioner.provision`
(the parallel fan-out modelled as iteration in index order): every node's
launch is attempted, and a launch error is only logged. -/
def launchAll (env : ProvisionEnv) : Nat → List SchedNode → List Effect
  | _, [] => []
  | i, node :: rest =>
    let r := launch (env.launchEnvs i) node
    (Effect.launchAttempt i :: r.2 ++
      (match r.1 with
       | .error _ => [Effect.logError "Launching node"]
       | .ok _ => [])) ++ launchAll env (i + 1) rest

/-- Embeds `Provisioner.provision`: get pods (an empty batch returns nil),
schedule them, then launch every resulting node, returning nil regardless of
individual launch outcomes. -/
def provision (env : ProvisionEnv) : Except Err Unit × List Effect :=
  match getPods env.podsEnv with
  | .error e => (.error e, [])
  | .ok pods =>
    if pods.length = 0 then (.ok (), [])
    else
      match schedule env.schedEnv pods with
      | (.error e, tr) => (.error e, tr)
      | (.ok nodes, tr) => (.ok (), tr ++ launchAll env 0 nodes)

/-- Outcome of the driver goroutine started by `NewProvisioner`: either the
governing context was cancelled after some number of passes, or the
observation fuel ran out with the loop still running. -/
inductive LoopOutcome where
  | stopped (passes : Nat)
  | fuelOut
deriving DecidableEq, Repr

/-- Embeds the goroutine body of `NewProvisioner`
(`for running.Err() == nil { if err := p.provision(running); err != nil { log } }`):
`alive i` is whether `running.Err() == nil` before iteration `i` and
`passResult i` the result of the i-th `provision`; the recursion is fueled so
the infinite loop stays a total function. -/
def runLoop (alive : Nat → Bool) (passResult : Nat → Except Err Unit) :
    Nat → Nat → LoopOutcome × List Effect
  | 0, _ => (.fuelOut, [])
  | fuel + 1, i =>
    if alive i then
      let logs := match passResult i with
        | .error _ => [Effect.logError "Provisioning failed"]
        | .ok _ => []
      let r := runLoop alive passResult fuel (i + 1)
      (r.1, logs ++ r.2)
    else (.stopped i, [])

/-- Concrete provisioner whose CPU limit of 10 is already exceeded by a
current usage of 12; used to exercise the limits branch of `launch`. -/
def exmLimitsProvisioner : Provisioner :=
  { name := "p", taints := [], startupTaints := [],
    limits := some [("cpu", 10)], statusResources := [("cpu", 12)] }

/-- Concrete provisioner with no limits block. -/
def exmFreeProvisioner : Provisioner :=
  { name := "p", taints := [], startupTaints := [], limits := none, statusResources := [] }

/-- Concrete untainted node object named "n". -/
def exmNodeObj : NodeObj := { name := "n", taints := [] }

/-- Concrete synthetic node with no placed pods. -/
def exmSchedNode : SchedNode :=
  { provisioner := exmFreeProvisioner, pods := [], instanceTypeOptions := [] }

/-- Bind oracle whose every per-pod binding call succeeds. -/
def exmBindEnv : BindEnv := { bindResult := fun _ => none }

/-- Launch environment whose fresh provisioner read returns
`exmLimitsProvisioner`. -/
def exmLimitsEnv : LaunchEnv :=
  { kubeGet := .ok exmLimitsProvisioner, cloudCreate := .ok exmNodeObj,
    mergeResult := none, registerNode := none, bindEnv := exmBindEnv }

/-- Launch environment whose node-object registration answers AlreadyExists. -/
def exmAlreadyExistsEnv : LaunchEnv :=
  { kubeGet := .ok exmFreeProvisioner, cloudCreate := .ok exmNodeObj,
    mergeResult := none, registerNode := some .alreadyExists, bindEnv := exmBindEnv }

/-- Concrete dedicated NoSchedule taint. -/
def exmTaint : Taint := { key := "dedicated", value := "x", effect := "NoSchedule" }

/-- Concrete node object carrying `exmTaint`. -/
def exmTaintedNodeObj : NodeObj := { name := "n", taints := [exmTaint] }

/-- Concrete pod tolerating `exmTaint`. -/
def exmTolerantPod : Pod :=
  { ns := "d", name := "good", nodeName := "",
    tolerations := [{ key := "dedicated", operator := "Equal", value := "x",
                      effect := "NoSchedule" }],
    requests := [] }

/-- Concrete pod with no tolerations at all. -/
def exmIntolerantPod : Pod :=
  { ns := "d", name := "q", nodeName := "", tolerations := [], requests := [] }

/-- Concrete pod already assigned to a node. -/
def exmAssignedPod : Pod :=
  { ns := "d", name := "assigned", nodeName := "n1", tolerations := [], requests := [] }

/-- Concrete cluster-store pod content for the `getPods` example. -/
def exmStoredPods : List Pod := [exmAssignedPod, exmTolerantPod, exmIntolerantPod]

/-- Concrete `getPods` environment: the pod named "q" fails validation,
everything else passes. -/
def exmPodsEnv : GetPodsEnv :=
  { listPods := .ok exmStoredPods,
    validateOk := fun p => p.name != "q",
    pvcOk := fun _ => true,
    provisionable := fun _ => true }

/-- Concrete daemon pod requesting 2 CPU. -/
def exmDaemonPod : Pod :=
  { ns := "kube-system", name := "ds-pod", nodeName := "", tolerations := [],
    requests := [("cpu", 2)] }

/-- Concrete DaemonSet built over `exmDaemonPod`. -/
def exmDaemonSet : DaemonSet := { template := exmDaemonPod }

/-- Concrete schedule environment whose provisioner listing is empty. -/
def exmEmptySchedEnv : ScheduleEnv :=
  { listProvisioners := .ok [], getRequirements := fun _ => none,
    getInstanceTypes := fun _ => .ok [], injectVolumeTopology := fun _ => none,
    buildTopology := .ok (), compatible := fun _ _ => true,
    listDaemonSets := .ok [], solve := .ok [] }

/-- Concrete schedule environment solving to the single node `exmSchedNode`. -/
def exmSchedEnvOne : ScheduleEnv :=
  { listProvisioners := .ok [exmFreeProvisioner], getRequirements := fun _ => none,
    getInstanceTypes := fun _ => .ok [], injectVolumeTopology := fun _ => none,
    buildTopology := .ok (), compatible := fun _ _ => true,
    listDaemonSets := .ok [], solve := .ok [exmSchedNode] }

/-- Concrete provision environment: one batched pod, one synthetic node, and
a launch environment that fails its limits check. -/
def exmProvisionEnv : ProvisionEnv :=
  { podsEnv := exmPodsEnv, schedEnv := exmSchedEnvOne, launchEnvs := fun _ => exmLimitsEnv }

/-- Context-liveness stream that cancels before the third iteration. -/
def exmAlive : Nat → Bool := fun i => decide (i < 2)

/-- Pass results that always fail. -/
def exmErrPass : Nat → Except Err Unit := fun _ => .error (.other "boom")

/-- Pass results that always succeed. -/
def exmOkPass : Nat → Except Err Unit := fun _ => .ok ()

end Karpenter

namespace Karpenter

/-- C10: for every non-empty instance-type list, the runtime chosen by AL2
UserData is decided by the first element alone: "containerd" exactly when its
NVIDIA GPU, AMD GPU and AWS Neuron resources are all zero, "dockerd"
otherwise; the tail of the list is ignored. -/
theorem userData_runtime_first_element (it : InstanceType) (rest rest' : List InstanceType) :
    (UserData (it :: rest)).containerRuntimeChoice =
      some (if getResource it.resources ResourceNVIDIAGPU = 0 ∧
               getResource it.resources ResourceAMDGPU = 0 ∧
               getResource it.resources ResourceAWSNeuron = 0 then
              "containerd" else "dockerd") ∧
    UserData (it :: rest) = UserData (it :: rest') := by
  constructor
  · simp only [UserData, containerRuntime, IsZero]
    by_cases h1 : getResource it.resources ResourceNVIDIAGPU = 0 <;>
      by_cases h2 : getResource it.resources ResourceAMDGPU = 0 <;>
        by_cases h3 : getResource it.resources ResourceAWSNeuron = 0 <;>
          simp [h1, h2, h3]
  · rfl

/-- C1: when the freshly re-read provisioner's limits are already exceeded by
its current resource usage, `launch` aborts with the limits error and makes
no cloud-provider Create call (the empty trace also shows no bind happens, so
the pods are deferred); the statement is universally quantified over the
synthetic node, so only the re-read provisioner from the store decides the
check. -/
theorem launch_limits_aborts_before_create (env : LaunchEnv) (node : SchedNode)
    (latest : Provisioner) (hget : env.kubeGet = .ok latest)
    (hexc : exceededBy latest.limits latest.statusResources = true) :
    (launch env node).1 = .error limitsExceededErr ∧ (launch env node).2 = [] := by
  simp [launch, hget, hexc]

/-- Witness for C1 at a concrete environment: limits CPU=10, usage CPU=12. -/
theorem launch_limits_aborts_before_create_witness :
    (launch exmLimitsEnv exmSchedNode).1 = .error limitsExceededErr ∧
      (launch exmLimitsEnv exmSchedNode).2 = [] :=
  launch_limits_aborts_before_create exmLimitsEnv exmSchedNode exmLimitsProvisioner
    rfl (by decide)

/-- C2: after a successful cloud-provider Create (and merge), a registration
answer decides the rest of the launch: an AlreadyExists error is treated as
success and the launch proceeds to bind; any other registration error aborts
the launch before bind. -/
theorem launch_register_already_exists (env : LaunchEnv) (node : SchedNode)
    (latest : Provisioner) (k8sNode : NodeObj) (e : Err)
    (hget : env.kubeGet = .ok latest)
    (hexc : exceededBy latest.limits latest.statusResources = false)
    (hcreate : env.cloudCreate = .ok k8sNode)
    (hmerge : env.mergeResult = none)
    (hreg : env.registerNode = some e) :
    if e.isAlreadyExists then
      (launch env node).1 = .ok () ∧ Effect.bindStart k8sNode.name ∈ (launch env node).2
    else
      (launch env node).1 = .error (.other "creating node") ∧
        Effect.bindStart k8sNode.name ∉ (launch env node).2 := by
  cases e with
  | alreadyExists =>
    simp [launch, hget, hexc, hcreate, hmerge, hreg, Err.isAlreadyExists, bind]
  | other m =>
    simp [launch, hget, hexc, hcreate, hmerge, hreg, Err.isAlreadyExists, Effect.bindStart]

/-- Witness for C2 at a concrete environment whose registration answer is
AlreadyExists. -/
theorem launch_register_already_exists_witness :
    (launch exmAlreadyExistsEnv exmSchedNode).1 = .ok () ∧
      Effect.bindStart "n" ∈ (launch exmAlreadyExistsEnv exmSchedNode).2 := by
  have h := launch_register_already_exists exmAlreadyExistsEnv exmSchedNode
    exmFreeProvisioner exmNodeObj .alreadyExists rfl (by decide) rfl rfl rfl
  simpa [Err.isAlreadyExists, exmNodeObj] using h

/-- C3: during bind, a placed pod whose tolerations (extended by the two
standard not-ready tolerations) do not tolerate the node's taints receives a
`PodShouldSchedule` event and no binding attempt of its own; a pod that does
tolerate them gets a binding call targeting the node. -/
theorem bind_per_pod (env : BindEnv) (node : NodeObj) (pods : List Pod)
    (i : Nat) (pod : Pod) (h : (i, pod) ∈ pods.enum) :
    if taintsTolerate node.taints pod.tolerations notReadyTolerations then
      Effect.bindCall pod.ns pod.name node.name ∈ (bind env node pods).2
    else
      Effect.podShouldSchedule pod.ns pod.name ∈ (bind env node pods).2 ∧
        Effect.bindCall pod.ns pod.name node.name ∉ bindPod env node i pod := by
  have hmem : bindPod env node i pod ∈ pods.enum.map (fun ip => bindPod env node ip.1 ip.2) :=
    List.mem_map.mpr ⟨(i, pod), h, rfl⟩
  by_cases htol : taintsTolerate node.taints pod.tolerations notReadyTolerations
  · simp only [htol, if_true]
    refine List.mem_flatten.mpr ⟨bindPod env node i pod, hmem, ?_⟩
    simp [bindPod, htol]
  · simp only [htol, if_false]
    constructor
    · refine List.mem_flatten.mpr ⟨bindPod env node i pod, hmem, ?_⟩
      simp [bindPod, htol]
    · simp [bindPod, htol]

/-- Witness for C3 on a two-pod list: the first pod tolerates the node's
dedicated taint, the second tolerates nothing. -/
theorem bind_per_pod_witness :
    (1, exmIntolerantPod) ∈ ([exmTolerantPod, exmIntolerantPod] : List Pod).enum ∧
    (Effect.podShouldSchedule "d" "q" ∈
        (bind exmBindEnv exmTaintedNodeObj [exmTolerantPod, exmIntolerantPod]).2 ∧
      Effect.bindCall "d" "q" "n" ∉ bindPod exmBindEnv exmTaintedNodeObj 1 exmIntolerantPod) := by
  refine ⟨by decide, ?_⟩
  have h := bind_per_pod exmBindEnv exmTaintedNodeObj [exmTolerantPod, exmIntolerantPod]
    1 exmIntolerantPod (by decide)
  have hfalse : taintsTolerate exmTaintedNodeObj.taints exmIntolerantPod.tolerations
      notReadyTolerations = false := by decide
  simpa [hfalse, exmIntolerantPod, exmTaintedNodeObj] using h

/-- C9: `bind` always returns nil, whatever the node, the pod list and the
outcomes of the individual binding calls against the cluster store: a launch
that reaches the bind phase can no longer fail. -/
theorem bind_always_ok (env : BindEnv) (node : NodeObj) (pods : List Pod) :
    (bind env node pods).1 = .ok () := rfl

/-- The skip-or-keep loop of `getPods` is the filter by the conjunction of
its three predicates. -/
theorem getPodsLoop_eq_filter (env : GetPodsEnv) (l : List Pod) :
    getPodsLoop env l =
      l.filter (fun p => (env.validateOk p && env.pvcOk p) && env.provisionable p) := by
  induction l with
  | nil => rfl
  | cons pod rest ih =>
    by_cases h1 : (env.validateOk pod && env.pvcOk pod) = true
    · by_cases h2 : env.provisionable pod = true <;>
        simp [getPodsLoop, h1, h2, List.filter_cons, ih]
    · simp [getPodsLoop, h1, List.filter_cons, ih]

/-- C8: when the store listing succeeds, the pod list fed into the pass is
exactly the stored pods that are unassigned, pass pod validation and
volume-claim validation, and are provisionable; validation failures are
skipped and the pass is not aborted (the result is still `.ok`). -/
theorem getPods_exact_filter (env : GetPodsEnv) (stored : List Pod)
    (h : env.listPods = .ok stored) :
    getPods env = .ok (stored.filter (fun p =>
      p.nodeName == "" &&
        ((env.validateOk p && env.pvcOk p) && env.provisionable p))) := by
  simp only [getPods, h, getPodsLoop_eq_filter, List.filter_filter]
  congr 1
  apply List.filter_congr
  intro p _
  cases env.validateOk p <;> cases env.pvcOk p <;> cases env.provisionable p <;>
    cases hn : (p.nodeName == "") <;> simp [hn]

/-- Witness for C8: of the three stored pods, the assigned one and the one
failing validation are dropped; the pass succeeds. -/
theorem getPods_exact_filter_witness :
    getPods exmPodsEnv = .ok [exmTolerantPod] := by
  rw [getPods_exact_filter exmPodsEnv exmStoredPods rfl]
  rfl

/-- The skip-or-keep loop of `getDaemonOverhead` is the filter by toleration
of the static taints and requirements compatibility. -/
theorem daemonsFor_eq_filter (compatible : Provisioner → Pod → Bool) (prov : Provisioner)
    (items : List DaemonSet) :
    daemonsFor compatible prov items =
      (items.filter (fun ds =>
        taintsTolerate prov.taints ds.template.tolerations [] &&
          compatible prov ds.template)).map (fun ds => ds.template) := by
  induction items with
  | nil => rfl
  | cons ds rest ih =>
    by_cases h1 : taintsTolerate prov.taints ds.template.tolerations [] = true
    · by_cases h2 : compatible prov ds.template = true <;>
        simp [daemonsFor, h1, h2, List.filter_cons, ih]
    · simp [daemonsFor, h1, List.filter_cons, ih]

/-- C7: when the DaemonSet listing succeeds, the daemon overhead of every
provisioner is the summed requests of exactly the DaemonSets whose template
both tolerates the provisioner's static taints and is compatible with its
requirements; and the filtered daemon set never consults the startup taints:
two provisioners with the same static taints and the same compatibility
verdicts select the same daemons. -/
theorem getDaemonOverhead_exact (compatible : Provisioner → Pod → Bool)
    (lds : Except Err (List DaemonSet)) (items : List DaemonSet)
    (provisioners : List Provisioner) (h : lds = .ok items) :
    getDaemonOverhead compatible lds provisioners =
      .ok (provisioners.map (fun prov =>
        (prov, RequestsForPods ((items.filter (fun ds =>
          taintsTolerate prov.taints ds.template.tolerations [] &&
            compatible prov ds.template)).map (fun ds => ds.template))))) ∧
    (∀ prov prov' : Provisioner, prov.taints = prov'.taints →
      (∀ p, compatible prov p = compatible prov' p) →
      daemonsFor compatible prov items = daemonsFor compatible prov' items) := by
  constructor
  · simp only [getDaemonOverhead, h, daemonsFor_eq_filter]
  · intro prov prov' ht hc
    rw [daemonsFor_eq_filter, daemonsFor_eq_filter]
    congr 1
    apply List.filter_congr
    intro ds _
    rw [ht, hc]

/-- Witness for C7: one DaemonSet requesting 2 CPU against a taintless
provisioner under an always-compatible requirements oracle. -/
theorem getDaemonOverhead_exact_witness :
    getDaemonOverhead (fun _ _ => true) (.ok [exmDaemonSet]) [exmFreeProvisioner] =
      .ok [(exmFreeProvisioner, [("cpu", 2)])] ∧
    daemonsFor (fun _ _ => true) exmLimitsProvisioner [exmDaemonSet] =
      daemonsFor (fun _ _ => true) exmFreeProvisioner [exmDaemonSet] := by
  have h := getDaemonOverhead_exact (fun _ _ => true) (.ok [exmDaemonSet]) [exmDaemonSet]
    [exmFreeProvisioner] rfl
  exact ⟨h.1.trans (by rfl), h.2 exmLimitsProvisioner exmFreeProvisioner rfl (fun _ => rfl)⟩

/-- C6: a pass whose provisioner snapshot is empty fails with the fatal
no-provisioners error, produces no synthetic nodes, and never reaches
`Scheduler.Solve`. -/
theorem schedule_no_provisioners (env : ScheduleEnv) (pods : List Pod)
    (h : env.listProvisioners = .ok []) :
    (schedule env pods).1 = .error noProvisionersErr ∧
      Effect.solveCall ∉ (schedule env pods).2 := by
  simp [schedule, h, buildProvisioners]

/-- Witness for C6 at a concrete environment with an empty provisioner
listing. -/
theorem schedule_no_provisioners_witness :
    (schedule exmEmptySchedEnv []).1 = .error noProvisionersErr ∧
      Effect.solveCall ∉ (schedule exmEmptySchedEnv []).2 :=
  schedule_no_provisioners exmEmptySchedEnv [] rfl

/-- Every index below the node count appears as a launch attempt in the
trace of `launchAll`. -/
theorem launchAttempt_mem_launchAll (env : ProvisionEnv) :
    ∀ (nodes : List SchedNode) (j i : Nat), i < nodes.length →
      Effect.launchAttempt (j + i) ∈ launchAll env j nodes := by
  intro nodes
  induction nodes with
  | nil => intro j i h; simp at h
  | cons node rest ih =>
    intro j i h
    cases i with
    | zero => simp [launchAll]
    | succ i' =>
      have hmem := ih (j + 1) i' (by simpa using Nat.lt_of_succ_lt_succ h)
      have hidx : j + (i' + 1) = (j + 1) + i' := by omega
      rw [hidx]
      simp only [launchAll, List.mem_append]
      exact Or.inr hmem

/-- C4: when the batch is non-empty and scheduling succeeds, the pass
completes without error and every synthetic node in the Solve result has its
launch attempted — whatever the individual launch environments do, since the
statement quantifies over them and launch failures only add a log line. -/
theorem provision_launches_all (env : ProvisionEnv) (pods : List Pod)
    (nodes : List SchedNode) (tr : List Effect)
    (hpods : getPods env.podsEnv = .ok pods) (hne : pods.length ≠ 0)
    (hsched : schedule env.schedEnv pods = (.ok nodes, tr)) :
    (provision env).1 = .ok () ∧
      ∀ i, i < nodes.length → Effect.launchAttempt i ∈ (provision env).2 := by
  have hprov : provision env = (.ok (), tr ++ launchAll env 0 nodes) := by
    simp [provision, hpods, hne, hsched]
  rw [hprov]
  refine ⟨rfl, fun i hi => ?_⟩
  have := launchAttempt_mem_launchAll env nodes 0 i hi
  simpa using List.mem_append.mpr (Or.inr (by simpa using this))

/-- Witness for C4: one batched pod, one synthetic node whose launch fails
its limits check; the pass still returns nil and attempted the launch. -/
theorem provision_launches_all_witness :
    (provision exmProvisionEnv).1 = .ok () ∧
      Effect.launchAttempt 0 ∈ (provision exmProvisionEnv).2 := by
  have h := provision_launches_all exmProvisionEnv [exmTolerantPod] [exmSchedNode]
    [Effect.solveCall] (by rfl) (by decide) (by rfl)
  exact ⟨h.1, h.2 0 (by decide)⟩

/-- The driver's exit behaviour does not depend on the pass results. -/
theorem runLoop_result_indep (alive : Nat → Bool) (r r' : Nat → Except Err Unit) :
    ∀ fuel i, (runLoop alive r fuel i).1 = (runLoop alive r' fuel i).1 := by
  intro fuel
  induction fuel with
  | zero => intro i; rfl
  | succ f ih =>
    intro i
    by_cases h : alive i = true <;> simp [runLoop, h, ih]

/-- When the driver stopped after `n` passes, the context was cancelled at
`n` and every earlier iteration ran with a live context. -/
theorem runLoop_stopped (alive : Nat → Bool) (r : Nat → Except Err Unit) :
    ∀ fuel i n, (runLoop alive r fuel i).1 = .stopped n →
      alive n = false ∧ ∀ j, i ≤ j → j < n → alive j = true := by
  intro fuel
  induction fuel with
  | zero => intro i n h; simp [runLoop] at h
  | succ f ih =>
    intro i n h
    by_cases ha : alive i = true
    · have h' : (runLoop alive r f (i + 1)).1 = .stopped n := by
        simpa [runLoop, ha] using h
      obtain ⟨h1, h2⟩ := ih (i + 1) n h'
      refine ⟨h1, fun j hij hjn => ?_⟩
      rcases eq_or_lt_of_le hij with rfl | hlt
      · exact ha
      · exact h2 j hlt hjn
    · have hstop : LoopOutcome.stopped i = .stopped n := by
        simpa [runLoop, ha] using h
      cases hstop
      exact ⟨by simpa using ha, fun j hij hjn => absurd hjn (by omega)⟩

/-- C5: the driver loop never exits because a pass returned an error — its
outcome is identical under any two pass-result streams; an error in a live
iteration is logged and the loop immediately runs the next iteration with
unchanged outcome; and a stop at `n` means exactly that the governing context
was cancelled at `n` after every earlier iteration ran live. -/
theorem provisioning_loop_never_exits_on_error (alive : Nat → Bool)
    (r r' : Nat → Except Err Unit) (fuel i n : Nat) (e : Err) :
    (runLoop alive r fuel i).1 = (runLoop alive r' fuel i).1 ∧
    (alive i = true → r i = .error e →
      (runLoop alive r (fuel + 1) i).2 =
        Effect.logError "Provisioning failed" :: (runLoop alive r fuel (i + 1)).2 ∧
      (runLoop alive r (fuel + 1) i).1 = (runLoop alive r fuel (i + 1)).1) ∧
    ((runLoop alive r fuel i).1 = .stopped n →
      alive n = false ∧ ∀ j, i ≤ j → j < n → alive j = true) := by
  refine ⟨runLoop_result_indep alive r r' fuel i, ?_, runLoop_stopped alive r fuel i n⟩
  intro ha hr
  constructor <;> simp [runLoop, ha, hr]

/-- Witness for C5: a context cancelled before the third iteration, with
every pass failing; the loop ran both live iterations and stopped at 2, the
same as under all-successful passes. -/
theorem provisioning_loop_never_exits_on_error_witness :
    (runLoop exmAlive exmErrPass 4 0).1 = (runLoop exmAlive exmOkPass 4 0).1 ∧
    ((runLoop exmAlive exmErrPass 5 0).2 =
        Effect.logError "Provisioning failed" :: (runLoop exmAlive exmErrPass 4 1).2 ∧
      (runLoop exmAlive exmErrPass 5 0).1 = (runLoop exmAlive exmErrPass 4 1).1) ∧
    (exmAlive 2 = false ∧ ∀ j, 0 ≤ j → j < 2 → exmAlive j = true) := by
  have h := provisioning_loop_never_exits_on_error exmAlive exmErrPass exmOkPass 4 0 2
    (.other "boom")
  exact ⟨h.1, h.2.1 (by decide) rfl, h.2.2 (by decide)⟩

end Karpenter
